import Mathlib

/-!
# Meeting-notes summarizer backend: the two route handlers

A shallow embedding of `src/Backend/routes/main.js` (`createSummarizeRouter`):
the `/summarize` and `/share` handlers, the JavaScript values they read from
`req.body` and from the provider's response, and the two external collaborators
(`fetch` and `transporter.sendMail`) as functions of an explicit environment.
Every handler run returns its completion together with the trace of external
calls it made and the lines it logged.
-/

namespace MeetingNotes

/-! ## JavaScript values -/

/-- A JavaScript value as the handlers can meet it: the result of parsing JSON
(`null`, booleans, numbers, strings, arrays, objects) plus `undefined`, which
is what reading an absent property gives. `num n` is the number `n`, a
safe integer (at most `2^53 - 1` in size, where the number is exact and its
string conversion is its decimal digits); numbers outside that range and
numbers with a fraction are not part of the model. The handlers look at a
number only through its truthiness and its string conversion. `obj kvs` lists the own properties of a parsed object, keys
distinct. Strings are compared and cut character by character. -/
inductive JSVal where
  | undefined
  | null
  | bool (b : Bool)
  | num (n : Int)
  | str (s : String)
  | arr (xs : List JSVal)
  | obj (kvs : List (String × JSVal))

namespace JSVal

/-- Is the value `undefined` or `null`. -/
def isNullish : JSVal → Bool
  | undefined => true
  | null => true
  | _ => false

/-- JavaScript truthiness (`!!v`): `undefined`, `null`, `false`, `0` and `""`
are falsy, everything else (every array and object included) is truthy. -/
def truthy : JSVal → Bool
  | undefined => false
  | null => false
  | bool b => b
  | num n => n != 0
  | str s => s != ""
  | arr _ => true
  | obj _ => true

/-- Property read `v.k` for one of the names the handlers use (`transcript`,
`prompt`, `summary`, `emails`, `candidates`, `content`, `parts`, `text`): an
own property of an object, `undefined` on anything else (no prototype carries
one of these names). The nullish case is decided by the caller: destructuring
throws on it, `?.` short-circuits. -/
def member (v : JSVal) (k : String) : JSVal :=
  match v with
  | obj kvs => (kvs.lookup k).getD undefined
  | _ => undefined

/-- Element read `v[0]`: the first element of an array, the own property `"0"`
of an object, the first character of a non-empty string, `undefined`
otherwise. -/
def index0 (v : JSVal) : JSVal :=
  match v with
  | arr xs => xs.headD undefined
  | obj kvs => (kvs.lookup "0").getD undefined
  | str s =>
    match s.data with
    | [] => undefined
    | c :: _ => str (String.singleton c)
  | _ => undefined

/-- Optional chaining `v?.k`. -/
def optMember (v : JSVal) (k : String) : JSVal :=
  if v.isNullish then undefined else v.member k

/-- Optional chaining `v?.[0]`. -/
def optIndex0 (v : JSVal) : JSVal :=
  if v.isNullish then undefined else v.index0

mutual
/-- String conversion as a template literal performs it (`ToString`), `none`
when it throws a `TypeError`. An array joins its elements with `","`; a plain
object gives `"[object Object]"`, unless it has an own `toString` property:
a parsed value is never callable, `Object.prototype.valueOf` returns the
object itself, and the conversion throws. -/
def toStr : JSVal → Option String
  | undefined => some "undefined"
  | null => some "null"
  | bool b => some (if b then "true" else "false")
  | num n => some (toString n)
  | str s => some s
  | arr xs => joinElems xs
  | obj kvs => if (kvs.lookup "toString").isSome then none else some "[object Object]"
/-- The body of `Array.prototype.join` with separator `","`: `undefined` and
`null` elements give the empty string, the others are converted. -/
def joinElems : List JSVal → Option String
  | [] => some ""
  | x :: rest =>
    let first : Option String :=
      match x with
      | undefined => some ""
      | null => some ""
      | v => toStr v
    match rest with
    | [] => first
    | _ :: _ =>
      match first, joinElems rest with
      | some a, some b => some (a ++ "," ++ b)
      | _, _ => none
end

end JSVal

/-! ## Strings -/

/-- The characters `String.prototype.trim` strips: JavaScript white space and
line terminators. -/
def isJSWhiteSpace (c : Char) : Bool :=
  c.toNat ∈ [0x9, 0xA, 0xB, 0xC, 0xD, 0x20, 0xA0, 0x1680, 0x2028, 0x2029, 0x202F, 0x205F,
    0x3000, 0xFEFF] || (0x2000 ≤ c.toNat && c.toNat ≤ 0x200A)

/-- Characters of `s.trim()`. -/
def trimChars (cs : List Char) : List Char :=
  ((cs.dropWhile isJSWhiteSpace).reverse.dropWhile isJSWhiteSpace).reverse

/-- The method `String.prototype.trim`. -/
def trim (s : String) : String := ⟨trimChars s.data⟩

/-- Characters of `s.split(sep)` for a one-character separator: the pieces
between consecutive separators, empty pieces kept. -/
def splitChars (sep : Char) : List Char → List (List Char)
  | [] => [[]]
  | c :: cs =>
    if c = sep then [] :: splitChars sep cs
    else
      match splitChars sep cs with
      | [] => [[c]]
      | t :: ts => (c :: t) :: ts

/-- The call `s.split(',')`. -/
def split (s : String) (sep : Char) : List String :=
  (splitChars sep s.data).map String.mk

/-- Characters of `s.replace(/\n/g, '<br>')`: every line feed becomes the four
characters `<br>`, every other character is kept. -/
def replaceNewlineChars : List Char → List Char
  | [] => []
  | c :: cs =>
    if c = '\n' then '<' :: 'b' :: 'r' :: '>' :: replaceNewlineChars cs
    else c :: replaceNewlineChars cs

/-- The call `summary.replace(/\n/g, '<br>')`. -/
def replaceNewlines (s : String) : String := ⟨replaceNewlineChars s.data⟩

/-- The call `xs.join(sep)` on an array of strings. -/
def join (xs : List String) (sep : String) : String :=
  ⟨List.intercalate sep.data (xs.map String.data)⟩

/-! ## Requests, responses and the outside world -/

/-- What `res.status(n).json(body)` writes (`res.json(body)` alone keeps the
default status 200). -/
structure Response where
  status : Nat
  body : JSVal

/-- The request handed to `fetch`: the URL and the options object of the call.
The field `body` is the value that `JSON.stringify` serialises. -/
structure FetchRequest where
  url : String
  method : String
  contentType : String
  body : JSVal

/-- What the `fetch` call of the summarize handler comes back with: the promise
rejects (`failed`), or it resolves to a response with a status code whose
`json()` either resolves to the parsed body or rejects on text that is no
JSON. -/
inductive FetchOutcome where
  | failed (detail : String)
  | response (status : Nat) (json : Except String JSVal)

/-- The getter `response.ok`: the status is in the range 200 to 299. -/
def FetchOutcome.ok (status : Nat) : Bool := 200 ≤ status && status ≤ 299

/-- The object `mailOptions` handed to `transporter.sendMail`; `from_` and
`to_` are its fields `from` and `to`. -/
structure MailOptions where
  from_ : Option String
  to_ : List String
  subject : String
  html : String

/-- One call that leaves the process. -/
inductive ExternalCall where
  | fetch (req : FetchRequest)
  | sendMail (opts : MailOptions)

/-- What a handler run ends in: a response written by the handler, or an
exception that escapes it (the promise of the `async` handler rejects and the
handler has written no response). -/
inductive Completion where
  | responded (r : Response)
  | threw (error : String)

/-- A finished handler run: how it ended, the external calls it made in order,
and the lines it wrote with `console.log` and `console.error`. -/
structure Outcome where
  completion : Completion
  calls : List ExternalCall
  logs : List String

/-- Everything the router closes over or reaches out to: the arguments
`apiKey` and `transporter` of `createSummarizeRouter`, `process.env.EMAIL_USER`
(an unset variable reads as `undefined`), and the behaviour of the provider
behind `fetch`. -/
structure Env where
  apiKey : Option String
  emailUser : Option String
  fetch : FetchRequest → FetchOutcome
  sendMail : MailOptions → Except String Unit

/-- String concatenation with a value that is a string or `undefined`. -/
def orUndefined : Option String → String
  | some s => s
  | none => "undefined"

/-! ## The summarize handler -/

/-- The fallback summary. -/
def noSummary : String := "No summary could be generated."

/-- The template literal that builds `fullPrompt`, on strings. -/
def composePrompt (prompt transcript : String) : String :=
  prompt ++ "\n\nTranscript:\n" ++ transcript

/-- The template literal that builds `fullPrompt`, on arbitrary values:
both are converted to strings, the prompt first; `none` when a conversion
throws. -/
def fullPrompt (prompt transcript : JSVal) : Option String :=
  match prompt.toStr, transcript.toStr with
  | some p, some t => some (composePrompt p t)
  | _, _ => none

/-- The object `payload`. -/
def payload (text : String) : JSVal :=
  .obj [("contents", .arr [.obj [("parts", .arr [.obj [("text", .str text)]])]])]

/-- The string `apiUrl`. -/
def apiUrl (apiKey : Option String) : String :=
  "https://generativelanguage.googleapis.com/v1beta/models/gemini-2.5-flash-preview-05-20:generateContent?key="
    ++ orUndefined apiKey

/-- The request of the `fetch` call. -/
def fetchRequest (apiKey : Option String) (text : String) : FetchRequest :=
  ⟨apiUrl apiKey, "POST", "application/json", payload text⟩

/-- The chain `result?.candidates?.[0]?.content?.parts?.[0]?.text`. -/
def extractText (result : JSVal) : JSVal :=
  ((((((result.optMember "candidates").optIndex0).optMember "content").optMember
    "parts").optIndex0).optMember "text")

/-- The value `generatedText`: the extracted text when it is truthy, the
fallback string otherwise (`||`). -/
def generatedText (result : JSVal) : JSVal :=
  if (extractText result).truthy then extractText result else .str noSummary

/-- The response of the `catch` block of the summarize handler. -/
def summarizeFailure : Response :=
  ⟨500, .obj [("error", .str "Failed to generate summary.")]⟩

/-- The handler of `POST /summarize` on `req.body = body`. -/
def summarize (env : Env) (body : JSVal) : Outcome :=
  if body.isNullish then
    ⟨.threw "TypeError: Cannot destructure property of req.body", [], []⟩
  else
    let transcript := body.member "transcript"
    let prompt := body.member "prompt"
    if !transcript.truthy || !prompt.truthy then
      ⟨.responded ⟨400, .obj [("error", .str "Transcript and prompt are required.")]⟩, [], []⟩
    else
      match fullPrompt prompt transcript with
      | none => ⟨.threw "TypeError: Cannot convert object to primitive value", [], []⟩
      | some text =>
        let req := fetchRequest env.apiKey text
        match env.fetch req with
        | .failed detail =>
          ⟨.responded summarizeFailure, [.fetch req], ["Error generating summary: " ++ detail]⟩
        | .response status json =>
          if !FetchOutcome.ok status then
            ⟨.responded summarizeFailure, [.fetch req],
              ["Error generating summary: API call failed with status: " ++ toString status]⟩
          else
            match json with
            | .error detail =>
              ⟨.responded summarizeFailure, [.fetch req],
                ["Error generating summary: " ++ detail]⟩
            | .ok result =>
              ⟨.responded ⟨200, .obj [("summary", generatedText result)]⟩, [.fetch req], []⟩

/-! ## The share handler -/

/-- The template literal of `mailOptions.html` around `formattedSummary`. -/
def htmlBody (formattedSummary : String) : String :=
  "\n        <h2>Meeting Summary from your AI Assistant</h2>\n        <p>Hello,</p>\n        <p>Here is the meeting summary you requested:</p>\n        <div style=\"background-color: #f4f4f4; padding: 16px; border-radius: 8px;\">\n          "
    ++ formattedSummary
    ++ "\n        </div>\n        <p>Regards,<br>Your AI Assistant</p>\n      "

/-- The array `recipients`. -/
def recipients (emails : String) : List String :=
  (split emails ',').map trim

/-- The object `mailOptions`. -/
def mailOptions (emailUser : Option String) (summary emails : String) : MailOptions :=
  ⟨emailUser, recipients emails, "AI-Generated Meeting Summary",
    htmlBody (replaceNewlines summary)⟩

/-- The response of the `catch` block of the share handler. -/
def shareFailure : Response :=
  ⟨500, .obj [("message",
    .str "Failed to send email. Please check your Nodemailer configuration.")]⟩

/-- The handler of `POST /share` on `req.body = body`. The calls
`summary.replace` and `emails.split` stand before the `try` block; on a value
that is no string the method does not exist and the call throws. -/
def share (env : Env) (body : JSVal) : Outcome :=
  if body.isNullish then
    ⟨.threw "TypeError: Cannot destructure property of req.body", [], []⟩
  else
    let summary := body.member "summary"
    let emails := body.member "emails"
    if !summary.truthy || !emails.truthy then
      ⟨.responded ⟨400, .obj [("error", .str "Summary and recipient emails are required.")]⟩,
        [], []⟩
    else
      match summary with
      | .str s =>
        match emails with
        | .str e =>
          let opts := mailOptions env.emailUser s e
          match env.sendMail opts with
          | .ok _ =>
            ⟨.responded ⟨200, .obj [("message",
                .str ("Summary successfully shared via email to: " ++ join (recipients e) ", "))]⟩,
              [.sendMail opts], ["Email successfully sent to: " ++ join (recipients e) ", "]⟩
          | .error detail =>
            ⟨.responded shareFailure, [.sendMail opts], ["Error sending email: " ++ detail]⟩
        | _ => ⟨.threw "TypeError: emails.split is not a function", [], []⟩
      | _ => ⟨.threw "TypeError: summary.replace is not a function", [], []⟩

/-! ## Vocabulary of the properties -/

/-- The field `k` of the body counts as absent: the key is missing (the read
gives `undefined`), or its value is `null` or the empty string. -/
def FieldAbsent (body : JSVal) (k : String) : Prop :=
  body.member k = .undefined ∨ body.member k = .null ∨ body.member k = .str ""

/-- A valid summarize request: `transcript` is the non-empty string `T` and
`prompt` is the non-empty string `P`. -/
def ValidSummarize (body : JSVal) (T P : String) : Prop :=
  body.member "transcript" = .str T ∧ body.member "prompt" = .str P ∧ T ≠ "" ∧ P ≠ ""

/-- A valid share request: `summary` is the non-empty string `s` and `emails`
is the non-empty string `e`. -/
def ValidShare (body : JSVal) (s e : String) : Prop :=
  body.member "summary" = .str s ∧ body.member "emails" = .str e ∧ s ≠ "" ∧ e ≠ ""

/-- The values met along `result?.candidates?.[0]?.content?.parts?.[0]?.text`,
from the response itself down to the text. -/
def pathValues (result : JSVal) : List JSVal :=
  let r1 := result.optMember "candidates"
  let r2 := r1.optIndex0
  let r3 := r2.optMember "content"
  let r4 := r3.optMember "parts"
  let r5 := r4.optIndex0
  let r6 := r5.optMember "text"
  [result, r1, r2, r3, r4, r5, r6]

/-- An environment whose provider and transport behave in a fixed way, with
key `"KEY"` and sender `"sender@example.com"`. -/
def stubEnv (provider : FetchOutcome) (transport : Except String Unit) : Env :=
  ⟨some "KEY", some "sender@example.com", fun _ => provider, fun _ => transport⟩

/-- A well-formed provider body: one candidate whose content has one part
with text `s`. -/
def providerBody (s : String) : JSVal :=
  .obj [("candidates", .arr [.obj [("content", .obj [("parts", .arr [.obj [("text", .str s)]])])]])]

/-- The summarize request `{ transcript: "T", prompt: "P" }`. -/
def sampleSummarizeBody : JSVal :=
  .obj [("transcript", .str "T"), ("prompt", .str "P")]

/-- The share request `{ summary: "line1\nline2", emails: " a@x.com, b@y.com " }`. -/
def sampleShareBody : JSVal :=
  .obj [("summary", .str "line1\nline2"), ("emails", .str " a@x.com, b@y.com ")]

/-! ## Lemmas on values -/

theorem JSVal.member_str_not_nullish {v : JSVal} {k s : String}
    (h : v.member k = .str s) : v.isNullish = false := by
  cases v <;> simp [JSVal.member, JSVal.isNullish] at *

theorem JSVal.truthy_str {s : String} (h : s ≠ "") : (JSVal.str s).truthy = true := by
  simp [JSVal.truthy, h]

theorem JSVal.optMember_nullish {v : JSVal} (k : String) (h : v.isNullish = true) :
    v.optMember k = .undefined := by
  simp [JSVal.optMember, h]

theorem JSVal.optIndex0_nullish {v : JSVal} (h : v.isNullish = true) :
    v.optIndex0 = .undefined := by
  simp [JSVal.optIndex0, h]

theorem JSVal.not_truthy_of_nullish {v : JSVal} (h : v.isNullish = true) :
    v.truthy = false := by
  cases v <;> simp [JSVal.isNullish, JSVal.truthy] at *

theorem not_truthy_of_fieldAbsent {body : JSVal} {k : String} (h : FieldAbsent body k) :
    (body.member k).truthy = false := by
  rcases h with h | h | h <;> simp [h, JSVal.truthy]

/-- A nullish value anywhere along the path makes the extracted text nullish. -/
theorem extractText_nullish_of_path {result : JSVal}
    (h : ∃ v ∈ pathValues result, v.isNullish = true) :
    (extractText result).isNullish = true := by
  obtain ⟨v, hv, hn⟩ := h
  have hu : JSVal.undefined.isNullish = true := rfl
  simp only [pathValues, List.mem_cons, List.mem_singleton, List.not_mem_nil, or_false] at hv
  unfold extractText
  rcases hv with rfl | rfl | rfl | rfl | rfl | rfl | rfl
  · simp [JSVal.optMember_nullish, JSVal.optIndex0_nullish, hn, hu]
  · simp [JSVal.optMember_nullish, JSVal.optIndex0_nullish, hn, hu]
  · simp [JSVal.optMember_nullish, JSVal.optIndex0_nullish, hn, hu]
  · simp [JSVal.optMember_nullish, JSVal.optIndex0_nullish, hn, hu]
  · simp [JSVal.optMember_nullish, JSVal.optIndex0_nullish, hn, hu]
  · simp [JSVal.optMember_nullish, JSVal.optIndex0_nullish, hn, hu]
  · exact hn

/-- The summarize handler on a valid request, for each behaviour of the
provider: the one `fetch` call is always made, with the composed prompt. -/
theorem summarize_of_valid (env : Env) {body : JSVal} {T P : String}
    (hv : ValidSummarize body T P) :
    summarize env body =
      match env.fetch (fetchRequest env.apiKey (composePrompt P T)) with
      | .failed detail =>
        ⟨.responded summarizeFailure, [.fetch (fetchRequest env.apiKey (composePrompt P T))],
          ["Error generating summary: " ++ detail]⟩
      | .response status json =>
        if FetchOutcome.ok status then
          match json with
          | .error detail =>
            ⟨.responded summarizeFailure,
              [.fetch (fetchRequest env.apiKey (composePrompt P T))],
              ["Error generating summary: " ++ detail]⟩
          | .ok result =>
            ⟨.responded ⟨200, .obj [("summary", generatedText result)]⟩,
              [.fetch (fetchRequest env.apiKey (composePrompt P T))], []⟩
        else
          ⟨.responded summarizeFailure, [.fetch (fetchRequest env.apiKey (composePrompt P T))],
            ["Error generating summary: API call failed with status: " ++ toString status]⟩ := by
  obtain ⟨hT, hP, hT0, hP0⟩ := hv
  have hb := JSVal.member_str_not_nullish hT
  simp only [summarize, hb, hT, hP, JSVal.truthy_str hT0, JSVal.truthy_str hP0, fullPrompt,
    JSVal.toStr]
  cases env.fetch (fetchRequest env.apiKey (composePrompt P T)) with
  | failed d => simp
  | response status json =>
    cases hok : FetchOutcome.ok status <;> cases json <;> simp [hok]

/-- The share handler on a valid request, for each behaviour of the transport:
the one `sendMail` call is always made, with the built `mailOptions`. -/
theorem share_of_valid (env : Env) {body : JSVal} {s e : String} (hv : ValidShare body s e) :
    share env body =
      match env.sendMail (mailOptions env.emailUser s e) with
      | .ok _ =>
        ⟨.responded ⟨200, .obj [("message",
            .str ("Summary successfully shared via email to: " ++ join (recipients e) ", "))]⟩,
          [.sendMail (mailOptions env.emailUser s e)],
          ["Email successfully sent to: " ++ join (recipients e) ", "]⟩
      | .error detail =>
        ⟨.responded shareFailure, [.sendMail (mailOptions env.emailUser s e)],
          ["Error sending email: " ++ detail]⟩ := by
  obtain ⟨hs, he, hs0, he0⟩ := hv
  have hb := JSVal.member_str_not_nullish hs
  simp only [share, hb, hs, he, JSVal.truthy_str hs0, JSVal.truthy_str he0]
  cases env.sendMail (mailOptions env.emailUser s e) <;> simp

/-! ## Lemmas on splitting, replacing and trimming -/

theorem splitChars_ne_nil (sep : Char) (cs : List Char) : splitChars sep cs ≠ [] := by
  cases cs with
  | nil => simp [splitChars]
  | cons c cs =>
    unfold splitChars
    split
    · simp
    · split <;> simp

theorem splitChars_cons_ne (sep c : Char) (cs : List Char) (h : c ≠ sep) :
    splitChars sep (c :: cs) =
      (c :: (splitChars sep cs).headD []) :: (splitChars sep cs).tail := by
  have hne := splitChars_ne_nil sep cs
  rw [splitChars, if_neg h]
  cases hs : splitChars sep cs with
  | nil => exact absurd hs hne
  | cons t ts => simp

theorem splitChars_cons_eq (sep : Char) (cs : List Char) :
    splitChars sep (sep :: cs) = [] :: splitChars sep cs := by
  rw [splitChars, if_pos rfl]

theorem splitChars_length (sep : Char) (cs : List Char) :
    (splitChars sep cs).length = cs.count sep + 1 := by
  induction cs with
  | nil => simp [splitChars]
  | cons c cs ih =>
    by_cases h : c = sep
    · subst h
      rw [splitChars_cons_eq]
      simp [ih]
    · rw [splitChars_cons_ne sep c cs h]
      have hne := splitChars_ne_nil sep cs
      cases hs : splitChars sep cs with
      | nil => exact absurd hs hne
      | cons t ts =>
        rw [hs] at ih
        simp [List.count_cons, h] at ih ⊢
        omega

theorem intercalate_cons_cons {α : Type} (sep : List α) (c : α) (t : List α)
    (ts : List (List α)) :
    List.intercalate sep ((c :: t) :: ts) = c :: List.intercalate sep (t :: ts) := by
  cases ts <;> simp [List.intercalate, List.intersperse]

theorem intercalate_nil_cons {α : Type} (sep : List α) (y : List α) (ys : List (List α)) :
    List.intercalate sep ([] :: y :: ys) = sep ++ List.intercalate sep (y :: ys) := by
  simp [List.intercalate, List.intersperse]

theorem splitChars_intercalate (sep : Char) (cs : List Char) :
    List.intercalate [sep] (splitChars sep cs) = cs := by
  induction cs with
  | nil => simp [splitChars, List.intercalate]
  | cons c cs ih =>
    have hne := splitChars_ne_nil sep cs
    by_cases h : c = sep
    · subst h
      rw [splitChars_cons_eq]
      cases hs : splitChars c cs with
      | nil => exact absurd hs hne
      | cons t ts =>
        rw [intercalate_nil_cons, ← hs, ih]
        rfl
    · rw [splitChars_cons_ne sep c cs h]
      cases hs : splitChars sep cs with
      | nil => exact absurd hs hne
      | cons t ts =>
        rw [hs] at ih
        simp only [List.headD_cons, List.tail_cons]
        rw [intercalate_cons_cons, ih]

theorem splitChars_no_sep (sep : Char) (cs : List Char) :
    ∀ t ∈ splitChars sep cs, sep ∉ t := by
  induction cs with
  | nil => simp [splitChars]
  | cons c cs ih =>
    have hne := splitChars_ne_nil sep cs
    by_cases h : c = sep
    · subst h
      rw [splitChars_cons_eq]
      intro t ht
      rcases List.mem_cons.1 ht with rfl | ht
      · simp
      · exact ih t ht
    · rw [splitChars_cons_ne sep c cs h]
      cases hs : splitChars sep cs with
      | nil => exact absurd hs hne
      | cons t ts =>
        rw [hs] at ih
        intro u hu
        simp only [List.headD_cons, List.tail_cons, List.mem_cons] at hu
        rcases hu with rfl | hu
        · intro hmem
          rcases List.mem_cons.1 hmem with heq | hmem
          · exact h heq.symm
          · exact ih t (List.mem_cons_self _ _) hmem
        · exact ih u (List.mem_cons_of_mem _ hu)

theorem replaceNewlineChars_eq_intercalate (cs : List Char) :
    replaceNewlineChars cs = List.intercalate ['<', 'b', 'r', '>'] (splitChars '\n' cs) := by
  induction cs with
  | nil => simp [splitChars, replaceNewlineChars, List.intercalate]
  | cons c cs ih =>
    have hne := splitChars_ne_nil '\n' cs
    by_cases h : c = '\n'
    · subst h
      rw [splitChars_cons_eq, replaceNewlineChars, if_pos rfl, ih]
      cases hs : splitChars '\n' cs with
      | nil => exact absurd hs hne
      | cons t ts =>
        rw [intercalate_nil_cons]
        rfl
    · rw [splitChars_cons_ne _ c cs h, replaceNewlineChars, if_neg h, ih]
      cases hs : splitChars '\n' cs with
      | nil => exact absurd hs hne
      | cons t ts =>
        simp only [List.headD_cons, List.tail_cons]
        rw [intercalate_cons_cons]

theorem replaceNewlineChars_no_newline (cs : List Char) :
    '\n' ∉ replaceNewlineChars cs := by
  induction cs with
  | nil => simp [replaceNewlineChars]
  | cons c cs ih =>
    by_cases h : c = '\n'
    · subst h
      rw [replaceNewlineChars, if_pos rfl]
      simp only [List.mem_cons, not_or]
      exact ⟨by decide, by decide, by decide, by decide, ih⟩
    · rw [replaceNewlineChars, if_neg h]
      simp only [List.mem_cons, not_or]
      exact ⟨fun heq => h heq.symm, ih⟩

theorem trimChars_decompose (cs : List Char) :
    cs = cs.takeWhile isJSWhiteSpace ++ trimChars cs ++
      ((cs.dropWhile isJSWhiteSpace).reverse.takeWhile isJSWhiteSpace).reverse := by
  have h1 := List.takeWhile_append_dropWhile isJSWhiteSpace cs
  have h2 := List.takeWhile_append_dropWhile isJSWhiteSpace
    (cs.dropWhile isJSWhiteSpace).reverse
  have h3 := congrArg List.reverse h2
  rw [List.reverse_append, List.reverse_reverse] at h3
  unfold trimChars
  rw [List.append_assoc, h3, h1]

theorem trimChars_head (cs : List Char) (c : Char) (h : (trimChars cs).head? = some c) :
    isJSWhiteSpace c = false := by
  have h2 := List.takeWhile_append_dropWhile isJSWhiteSpace
    (cs.dropWhile isJSWhiteSpace).reverse
  have h3 := congrArg List.reverse h2
  rw [List.reverse_append, List.reverse_reverse] at h3
  have hd : (cs.dropWhile isJSWhiteSpace).head? = some c := by
    rw [← h3]
    change (trimChars cs ++ _).head? = some c
    cases ht : trimChars cs with
    | nil => rw [ht] at h; simp at h
    | cons x xs =>
      rw [ht] at h
      simpa using h
  have := List.head?_dropWhile_not isJSWhiteSpace cs
  rw [hd] at this
  simpa using this

theorem trimChars_last (cs : List Char) (c : Char) (h : (trimChars cs).getLast? = some c) :
    isJSWhiteSpace c = false := by
  unfold trimChars at h
  rw [List.getLast?_reverse] at h
  have := List.head?_dropWhile_not isJSWhiteSpace (cs.dropWhile isJSWhiteSpace).reverse
  rw [h] at this
  simpa using this
theorem split_data (s : String) (sep : Char) :
    (split s sep).map String.data = splitChars sep s.data := by
  simp [split, List.map_map, Function.comp_def]

theorem join_split (s : String) (sep : Char) :
    join (split s sep) (String.singleton sep) = s := by
  unfold join
  rw [split_data]
  have h : (String.singleton sep).data = [sep] := rfl
  rw [h, splitChars_intercalate]

theorem replaceNewlines_eq_join (s : String) :
    replaceNewlines s = join (split s '\n') "<br>" := by
  unfold join replaceNewlines
  rw [split_data, replaceNewlineChars_eq_intercalate]

/-! ## The sample requests -/

theorem validSummarize_sample : ValidSummarize sampleSummarizeBody "T" "P" :=
  ⟨rfl, rfl, by decide, by decide⟩

theorem validShare_sample :
    ValidShare sampleShareBody "line1\nline2" " a@x.com, b@y.com " :=
  ⟨rfl, rfl, by decide, by decide⟩

/-! ## Validation -/

/-- On every request body that exists (anything but `undefined` and `null`) in
which `transcript` or `prompt` is a missing key, `null` or the empty string,
the summarize handler answers 400 with
`{error: 'Transcript and prompt are required.'}` and makes no external call. -/
theorem summarize_rejects_absent_field (env : Env) (body : JSVal)
    (hb : body.isNullish = false)
    (h : FieldAbsent body "transcript" ∨ FieldAbsent body "prompt") :
    summarize env body =
      ⟨.responded ⟨400, .obj [("error", .str "Transcript and prompt are required.")]⟩,
        [], []⟩ := by
  have hf : (!(body.member "transcript").truthy || !(body.member "prompt").truthy) = true := by
    rcases h with h | h <;> simp [not_truthy_of_fieldAbsent h]
  simp only [summarize, hb, hf]
  simp

/-- C1, evaluated at a request that carries no body (`req.body` is
`undefined`): `transcript` and `prompt` are both missing, the destructuring
that opens the summarize handler throws before the presence check is reached,
and the handler writes no 400 (it makes no external call either), whatever
the environment. -/
theorem summarize_throws_on_missing_body (env : Env) :
    FieldAbsent .undefined "transcript" ∧ FieldAbsent .undefined "prompt" ∧
    summarize env .undefined =
      ⟨.threw "TypeError: Cannot destructure property of req.body", [], []⟩ :=
  ⟨Or.inl rfl, Or.inl rfl, rfl⟩

/-- On every request body that exists (anything but `undefined` and `null`) in
which `summary` or `emails` is a missing key, `null` or the empty string, the
share handler answers 400 with
`{error: 'Summary and recipient emails are required.'}` and never calls the
mail transport. -/
theorem share_rejects_absent_field (env : Env) (body : JSVal)
    (hb : body.isNullish = false)
    (h : FieldAbsent body "summary" ∨ FieldAbsent body "emails") :
    share env body =
      ⟨.responded ⟨400, .obj [("error", .str "Summary and recipient emails are required.")]⟩,
        [], []⟩ := by
  have hf : (!(body.member "summary").truthy || !(body.member "emails").truthy) = true := by
    rcases h with h | h <;> simp [not_truthy_of_fieldAbsent h]
  simp only [share, hb, hf]
  simp

/-- C2, evaluated at a request that carries no body (`req.body` is
`undefined`): `summary` and `emails` are both missing, the destructuring that
opens the share handler throws before the presence check is reached, and the
handler writes no 400 (the mail transport is not called either), whatever the
environment. -/
theorem share_throws_on_missing_body (env : Env) :
    FieldAbsent .undefined "summary" ∧ FieldAbsent .undefined "emails" ∧
    share env .undefined =
      ⟨.threw "TypeError: Cannot destructure property of req.body", [], []⟩ :=
  ⟨Or.inl rfl, Or.inl rfl, rfl⟩

/-! ## The generation request -/

/-- C3: for every non-empty transcript `T` and prompt `P` the summarize handler
makes exactly one external call, the `fetch` whose payload has one content
block with one part, and the text of that part is `P`, then
`"\n\nTranscript:\n"`, then `T`. -/
theorem summarize_payload (env : Env) (body : JSVal) (T P : String)
    (hv : ValidSummarize body T P) :
    (summarize env body).calls =
      [.fetch ⟨apiUrl env.apiKey, "POST", "application/json",
        .obj [("contents", .arr [.obj [("parts", .arr [.obj [("text",
          .str (P ++ "\n\nTranscript:\n" ++ T))]])]])]⟩] := by
  rw [summarize_of_valid env hv]
  cases env.fetch (fetchRequest env.apiKey (composePrompt P T)) with
  | failed d => rfl
  | response status json =>
    cases hok : FetchOutcome.ok status <;> cases json <;>
      simp [hok, fetchRequest, payload, composePrompt]

theorem summarize_payload_witness :
    (summarize (stubEnv (.response 200 (.ok (providerBody "ok"))) (.ok ()))
        sampleSummarizeBody).calls =
      [.fetch ⟨apiUrl (some "KEY"), "POST", "application/json",
        .obj [("contents", .arr [.obj [("parts", .arr [.obj [("text",
          .str "P\n\nTranscript:\nT")]])]])]⟩] :=
  summarize_payload _ _ "T" "P" validSummarize_sample

/-! ## Reading the provider's response -/

/-- C4: when the provider answers with a success status and a body that
parsed, and some value along `candidates`, `[0]`, `content`, `parts`, `[0]`,
`text` is missing (the response itself `null` included), the summarize handler
answers 200 with the fallback summary. -/
theorem summarize_fallback_on_missing_path (env : Env) (body : JSVal) (T P : String)
    (status : Nat) (result : JSVal) (hv : ValidSummarize body T P)
    (hf : env.fetch (fetchRequest env.apiKey (composePrompt P T)) = .response status (.ok result))
    (hok : FetchOutcome.ok status = true)
    (hmiss : ∃ v ∈ pathValues result, v.isNullish = true) :
    (summarize env body).completion =
      .responded ⟨200, .obj [("summary", .str "No summary could be generated.")]⟩ := by
  have ht : (extractText result).truthy = false :=
    JSVal.not_truthy_of_nullish (extractText_nullish_of_path hmiss)
  rw [summarize_of_valid env hv, hf]
  simp [hok, generatedText, ht, noSummary]

theorem summarize_fallback_on_missing_path_witness :
    (summarize (stubEnv (.response 200 (.ok (.obj []))) (.ok ())) sampleSummarizeBody).completion =
      .responded ⟨200, .obj [("summary", .str "No summary could be generated.")]⟩ :=
  summarize_fallback_on_missing_path _ _ "T" "P" 200 (.obj []) validSummarize_sample rfl rfl
    ⟨.undefined, by simp [pathValues, JSVal.optMember, JSVal.isNullish, JSVal.member], rfl⟩

/-- C5, refuted as stated: a well-formed provider body whose text is the empty
string is answered with the fallback summary, not with the empty text. -/
theorem summarize_empty_text_gives_fallback :
    extractText (providerBody "") = .str "" ∧
    (summarize (stubEnv (.response 200 (.ok (providerBody ""))) (.ok ()))
        sampleSummarizeBody).completion =
      .responded ⟨200, .obj [("summary", .str "No summary could be generated.")]⟩ ∧
    (summarize (stubEnv (.response 200 (.ok (providerBody ""))) (.ok ()))
        sampleSummarizeBody).completion ≠
      .responded ⟨200, .obj [("summary", .str "")]⟩ := by
  refine ⟨rfl, rfl, ?_⟩
  intro h
  have h2 : Completion.responded ⟨200, .obj [("summary", .str "No summary could be generated.")]⟩
      = Completion.responded ⟨200, .obj [("summary", .str "")]⟩ := h
  simp at h2

/-- C5, amended: for every valid summarize request and every provider response
with a success status whose body has the non-empty string `s` at
`candidates[0].content.parts[0].text`, the handler answers 200 with
`{summary: s}`. -/
theorem summarize_returns_provider_text (env : Env) (body : JSVal) (T P : String)
    (status : Nat) (result : JSVal) (s : String) (hv : ValidSummarize body T P)
    (hf : env.fetch (fetchRequest env.apiKey (composePrompt P T)) = .response status (.ok result))
    (hok : FetchOutcome.ok status = true)
    (hs : extractText result = .str s) (hne : s ≠ "") :
    (summarize env body).completion = .responded ⟨200, .obj [("summary", .str s)]⟩ := by
  rw [summarize_of_valid env hv, hf]
  simp [hok, generatedText, hs, JSVal.truthy_str hne]

theorem summarize_returns_provider_text_witness :
    extractText (providerBody "Short summary.") = .str "Short summary." ∧
    (summarize (stubEnv (.response 200 (.ok (providerBody "Short summary."))) (.ok ()))
        sampleSummarizeBody).completion =
      .responded ⟨200, .obj [("summary", .str "Short summary.")]⟩ :=
  ⟨rfl, summarize_returns_provider_text _ _ "T" "P" 200 (providerBody "Short summary.")
    "Short summary." validSummarize_sample rfl rfl rfl (by decide)⟩

/-- C6, refuted as stated: a provider response with status 200 whose body does
not parse as JSON is answered with 500. -/
theorem summarize_unparsable_body_gives_500 :
    FetchOutcome.ok 200 = true ∧
    (summarize (stubEnv (.response 200 (.error "Unexpected token < in JSON")) (.ok ()))
        sampleSummarizeBody).completion =
      .responded ⟨500, .obj [("error", .str "Failed to generate summary.")]⟩ :=
  ⟨rfl, rfl⟩

/-- C6, amended: for every valid summarize request and every provider response
with a success status whose body parses as JSON, whatever value it parses to,
the handler answers 200 with a summary, which is the extracted text when that
is truthy and the fallback string otherwise. -/
theorem summarize_ok_body_never_errors (env : Env) (body : JSVal) (T P : String)
    (status : Nat) (result : JSVal) (hv : ValidSummarize body T P)
    (hf : env.fetch (fetchRequest env.apiKey (composePrompt P T)) = .response status (.ok result))
    (hok : FetchOutcome.ok status = true) :
    ∃ v, (summarize env body).completion = .responded ⟨200, .obj [("summary", v)]⟩ ∧
      (((extractText result).truthy = true ∧ v = extractText result) ∨
        ((extractText result).truthy = false ∧ v = .str "No summary could be generated.")) := by
  refine ⟨generatedText result, ?_, ?_⟩
  · rw [summarize_of_valid env hv, hf]
    simp [hok]
  · cases ht : (extractText result).truthy <;> simp [generatedText, ht, noSummary]

theorem summarize_ok_body_never_errors_witness :
    ∃ v, (summarize (stubEnv (.response 200 (.ok (.str "not an envelope"))) (.ok ()))
        sampleSummarizeBody).completion = .responded ⟨200, .obj [("summary", v)]⟩ ∧
      (((extractText (.str "not an envelope")).truthy = true ∧
          v = extractText (.str "not an envelope")) ∨
        ((extractText (.str "not an envelope")).truthy = false ∧
          v = .str "No summary could be generated.")) :=
  summarize_ok_body_never_errors _ _ "T" "P" 200 (.str "not an envelope")
    validSummarize_sample rfl rfl

/-! ## The outgoing mail -/

/-- C7: for every non-empty `emails` string the share handler hands the
transport the recipient list made of the comma-separated pieces of `emails`,
in order, each trimmed: joining the pieces with commas gives `emails` back, no
piece contains a comma, a trimmed piece is the piece without the white space
at its two ends, and the list has (number of commas) + 1 entries, so it is
not empty. -/
theorem share_recipient_list (env : Env) (body : JSVal) (s e : String)
    (hv : ValidShare body s e) :
    (share env body).calls = [.sendMail (mailOptions env.emailUser s e)] ∧
    (mailOptions env.emailUser s e).to_ = (split e ',').map trim ∧
    join (split e ',') "," = e ∧
    (∀ t ∈ split e ',', ',' ∉ t.data) ∧
    (∀ t : String, ∃ l r : List Char,
      t.data = l ++ (trim t).data ++ r ∧
      (∀ c ∈ l, isJSWhiteSpace c = true) ∧ (∀ c ∈ r, isJSWhiteSpace c = true) ∧
      (∀ c, (trim t).data.head? = some c → isJSWhiteSpace c = false) ∧
      (∀ c, (trim t).data.getLast? = some c → isJSWhiteSpace c = false)) ∧
    (mailOptions env.emailUser s e).to_.length = e.data.count ',' + 1 ∧
    (mailOptions env.emailUser s e).to_ ≠ [] := by
  have hlen : (mailOptions env.emailUser s e).to_.length = e.data.count ',' + 1 := by
    simp [mailOptions, recipients, split, splitChars_length]
  refine ⟨?_, rfl, join_split e ',', ?_, ?_, hlen, ?_⟩
  · rw [share_of_valid env hv]
    cases env.sendMail (mailOptions env.emailUser s e) <;> rfl
  · intro t ht
    simp only [split, List.mem_map] at ht
    obtain ⟨u, hu, rfl⟩ := ht
    exact splitChars_no_sep ',' e.data u hu
  · intro t
    refine ⟨t.data.takeWhile isJSWhiteSpace,
      ((t.data.dropWhile isJSWhiteSpace).reverse.takeWhile isJSWhiteSpace).reverse,
      trimChars_decompose t.data, ?_, ?_, trimChars_head t.data, trimChars_last t.data⟩
    · intro c hc
      exact (List.mem_takeWhile_imp hc)
    · intro c hc
      exact (List.mem_takeWhile_imp (List.mem_reverse.1 hc))
  · intro h
    rw [h] at hlen
    simp at hlen

theorem share_recipient_list_witness :
    (mailOptions (some "sender@example.com") "line1\nline2" " a@x.com, b@y.com ").to_ =
      ["a@x.com", "b@y.com"] ∧
    (share (stubEnv (.failed "down") (.ok ())) sampleShareBody).calls =
      [.sendMail (mailOptions (some "sender@example.com") "line1\nline2"
        " a@x.com, b@y.com ")] :=
  ⟨by decide,
    (share_recipient_list (stubEnv (.failed "down") (.ok ())) sampleShareBody "line1\nline2"
      " a@x.com, b@y.com " validShare_sample).1⟩

/-- C8: for every non-empty `summary` string the HTML body handed to the
transport contains, as one contiguous piece, the summary with every line feed
replaced by `<br>` and nothing else changed: that piece has no line feed and
is the pieces of `summary` between line feeds joined by `<br>`. -/
theorem share_html_body (env : Env) (body : JSVal) (s e : String)
    (hv : ValidShare body s e) :
    (share env body).calls = [.sendMail (mailOptions env.emailUser s e)] ∧
    (∃ pre post : String,
      (mailOptions env.emailUser s e).html = pre ++ replaceNewlines s ++ post) ∧
    '\n' ∉ (replaceNewlines s).data ∧
    replaceNewlines s = join (split s '\n') "<br>" := by
  refine ⟨?_, ⟨_, _, rfl⟩, replaceNewlineChars_no_newline s.data, replaceNewlines_eq_join s⟩
  rw [share_of_valid env hv]
  cases env.sendMail (mailOptions env.emailUser s e) <;> rfl

theorem share_html_body_witness :
    replaceNewlines "line1\nline2" = "line1<br>line2" ∧
    (∃ pre post : String,
      (mailOptions (some "sender@example.com") "line1\nline2" " a@x.com, b@y.com ").html =
        pre ++ replaceNewlines "line1\nline2" ++ post) :=
  ⟨by decide,
    (share_html_body (stubEnv (.failed "down") (.ok ())) sampleShareBody "line1\nline2"
      " a@x.com, b@y.com " validShare_sample).2.1⟩

/-! ## Failures of the collaborators -/

/-- C9: when the provider call of a valid summarize request rejects or answers
with a non-success status, the handler answers 500 with
`{error: 'Failed to generate summary.'}`; when the transport rejects the mail
of a valid share request, the handler answers 500 with
`{message: 'Failed to send email. Please check your Nodemailer configuration.'}`.
Both responses are constants: neither the status code of the provider nor the
detail of the error is part of them. -/
theorem failures_answer_generic_500 (env : Env) :
    (∀ (body : JSVal) (T P : String), ValidSummarize body T P →
      ((∃ detail, env.fetch (fetchRequest env.apiKey (composePrompt P T)) = .failed detail) ∨
        (∃ status json, FetchOutcome.ok status = false ∧
          env.fetch (fetchRequest env.apiKey (composePrompt P T)) = .response status json)) →
      (summarize env body).completion =
        .responded ⟨500, .obj [("error", .str "Failed to generate summary.")]⟩) ∧
    (∀ (body : JSVal) (s e : String), ValidShare body s e →
      (∃ detail, env.sendMail (mailOptions env.emailUser s e) = .error detail) →
      (share env body).completion =
        .responded ⟨500, .obj [("message",
          .str "Failed to send email. Please check your Nodemailer configuration.")]⟩) := by
  constructor
  · intro body T P hv hfail
    rw [summarize_of_valid env hv]
    rcases hfail with ⟨d, hd⟩ | ⟨status, json, hok, hr⟩
    · rw [hd]
      rfl
    · rw [hr]
      simp [hok, summarizeFailure]
  · intro body s e hv hfail
    obtain ⟨d, hd⟩ := hfail
    rw [share_of_valid env hv, hd]
    rfl

theorem failures_answer_generic_500_witness :
    (summarize (stubEnv (.response 503 (.ok (providerBody "late"))) (.error "EAUTH"))
        sampleSummarizeBody).completion =
      .responded ⟨500, .obj [("error", .str "Failed to generate summary.")]⟩ ∧
    (share (stubEnv (.response 503 (.ok (providerBody "late"))) (.error "EAUTH"))
        sampleShareBody).completion =
      .responded ⟨500, .obj [("message",
        .str "Failed to send email. Please check your Nodemailer configuration.")]⟩ :=
  ⟨(failures_answer_generic_500 (stubEnv (.response 503 (.ok (providerBody "late")))
      (.error "EAUTH"))).1 sampleSummarizeBody "T" "P" validSummarize_sample
      (Or.inr ⟨503, .ok (providerBody "late"), rfl, rfl⟩),
    (failures_answer_generic_500 (stubEnv (.response 503 (.ok (providerBody "late")))
      (.error "EAUTH"))).2 sampleShareBody "line1\nline2" " a@x.com, b@y.com "
      validShare_sample ⟨"EAUTH", rfl⟩⟩

/-! ## Values that are no strings -/

/-- C10, evaluated at `{ summary: 5, emails: "a@x.com" }`: the number passes
the presence check, `summary.replace` is no function, and the exception leaves
the share handler before its `try` block: no response is written and the
transport is not called, whatever the environment. -/
theorem share_throws_on_number_summary (env : Env) :
    share env (.obj [("summary", .num 5), ("emails", .str "a@x.com")]) =
      ⟨.threw "TypeError: summary.replace is not a function", [], []⟩ := by
  rfl

end MeetingNotes
